import Mathlib

/-!
Verification of the invoice-analytics filter-and-aggregate pipeline (src/app.py).

The dashboard loads an invoice table, filters it by country and date range,
and derives charts and KPIs from the filtered table.  Rows are embedded as
records over exact types: dates as (year, month, day) triples, money as ℚ,
the nullable customer id as an `Option`.  Each dataframe transformation of
the script becomes a list function below, keeping pandas semantics:
`groupby` drops null keys and sorts group keys, `crosstab` zero-fills
missing combinations, `quantile` interpolates linearly, comparisons with a
missing (NaN) threshold keep nothing.
-/

/-- Calendar date at day resolution, the granularity the pipeline uses. -/
structure Date where
  year : Nat
  month : Nat
  day : Nat
deriving DecidableEq

/-- Chronological order on dates: lexicographic on (year, month, day). -/
def Date.le (a b : Date) : Prop :=
  a.year < b.year ∨ (a.year = b.year ∧
    (a.month < b.month ∨ (a.month = b.month ∧ a.day ≤ b.day)))

instance : DecidableRel Date.le := fun a b => by
  unfold Date.le
  infer_instance

instance : IsTotal Date Date.le :=
  ⟨fun a b => by unfold Date.le; omega⟩

instance : IsTrans Date Date.le :=
  ⟨fun a b c h₁ h₂ => by unfold Date.le at h₁ h₂ ⊢; omega⟩

/-- pandas `dt.to_period("M").dt.to_timestamp()`: truncate a date to the
first day of its calendar month. -/
def monthStart (d : Date) : Date := ⟨d.year, d.month, 1⟩

/-- One row of the cleaned invoice table. `CustomerID` is nullable; the
`Weekday` column is absent (`none`) until the weekday stage writes it. -/
structure Row where
  InvoiceNo : Nat
  InvoiceDate : Date
  CustomerID : Option Nat
  Country : String
  InvoiceTotal : ℚ
  Weekday : Option String
deriving DecidableEq

/-- One row of the raw line-item table. -/
structure LineItem where
  Description : String
  Quantity : Int
  UnitPrice : ℚ
  Country : String
deriving DecidableEq

/-- Derived column of the raw table: `LineTotal = Quantity * UnitPrice`. -/
def LineItem.LineTotal (li : LineItem) : ℚ := li.Quantity * li.UnitPrice

/-- pandas sorts string group keys lexicographically; compare country names
by their character sequences. -/
def countryLt (a b : String) : Prop := a.data < b.data

/-- Sort order pandas uses for `groupby(["Country", "Month"])` keys:
lexicographic on the (country, month) pair. -/
def ckLe (a b : String × Date) : Prop :=
  countryLt a.1 b.1 ∨ (a.1 = b.1 ∧ Date.le a.2 b.2)

instance : DecidableRel ckLe := fun a b => by
  unfold ckLe countryLt
  infer_instance

instance : IsTotal (String × Date) ckLe := ⟨by
  intro a b
  rcases lt_trichotomy a.1.data b.1.data with h | h | h
  · exact Or.inl (Or.inl h)
  · have he : a.1 = b.1 := String.ext h
    rcases total_of Date.le a.2 b.2 with hd | hd
    · exact Or.inl (Or.inr ⟨he, hd⟩)
    · exact Or.inr (Or.inr ⟨he.symm, hd⟩)
  · exact Or.inr (Or.inl h)⟩

instance : IsTrans (String × Date) ckLe := ⟨by
  intro a b c h₁ h₂
  rcases h₁ with h₁ | ⟨e₁, d₁⟩
  · rcases h₂ with h₂ | ⟨e₂, d₂⟩
    · exact Or.inl (lt_trans h₁ h₂)
    · exact Or.inl (by unfold countryLt at h₁ ⊢; rw [← e₂]; exact h₁)
  · rcases h₂ with h₂ | ⟨e₂, d₂⟩
    · exact Or.inl (by unfold countryLt at h₂ ⊢; rw [e₁]; exact h₂)
    · exact Or.inr ⟨e₁.trans e₂, trans_of Date.le d₁ d₂⟩⟩

/-- `sort_values(ascending=False)`: order by a rational-valued projection,
largest value first. -/
def descBy {α : Type} (f : α → ℚ) (a b : α) : Prop := f b ≤ f a

instance {α : Type} (f : α → ℚ) : DecidableRel (descBy f) := fun a b => by
  unfold descBy
  infer_instance

instance {α : Type} (f : α → ℚ) : IsTotal α (descBy f) :=
  ⟨fun a b => le_total (f b) (f a)⟩

instance {α : Type} (f : α → ℚ) : IsTrans α (descBy f) :=
  ⟨fun _ _ _ h₁ h₂ => le_trans h₂ h₁⟩

/-- pandas `groupby` group keys: the distinct non-null keys of the rows
(`dropna=True`), in first-appearance order, before any sorting. -/
def groupKeys {α κ : Type} [DecidableEq κ] (key : α → Option κ) (rows : List α) : List κ :=
  (rows.filterMap key).dedup

/-- `groupby(key)[col].sum()`: for each distinct non-null key, the sum of
the column over exactly the rows carrying that key. -/
def groupSum {α κ : Type} [DecidableEq κ] (key : α → Option κ) (val : α → ℚ)
    (rows : List α) : List (κ × ℚ) :=
  (groupKeys key rows).map fun k =>
    (k, ((rows.filter fun r => key r = some k).map val).sum)

/-- `sort_values(by=value, ascending=False).head(10)`. -/
def sortValuesDescHead10 {κ : Type} (l : List (κ × ℚ)) : List (κ × ℚ) :=
  (List.insertionSort (descBy Prod.snd) l).take 10

/-- src/app.py lines 33-34: country predicate, skipped for the "All"
sentinel (modelled as `none`). -/
def countryFilter (rows : List Row) (c : Option String) : List Row :=
  match c with
  | none => rows
  | some s => rows.filter fun r => r.Country = s

/-- src/app.py lines 38-40: inclusive date-range predicate, applied only
when the picker supplies exactly two endpoints. -/
def dateFilter (rows : List Row) (range : List Date) : List Row :=
  match range with
  | [s, e] => rows.filter fun r => Date.le s r.InvoiceDate ∧ Date.le r.InvoiceDate e
  | _ => rows

/-- The whole filter stage: country predicate, then date predicate. -/
def filterStage (rows : List Row) (c : Option String) (range : List Date) : List Row :=
  dateFilter (countryFilter rows c) range

/-- src/app.py line 102: `df["InvoiceTotal"].sum()`. -/
def totalRevenue (rows : List Row) : ℚ :=
  (rows.map fun r => r.InvoiceTotal).foldl (· + ·) 0

/-- src/app.py line 103: `len(df)`. -/
def invoiceCount (rows : List Row) : Nat := rows.length

/-- src/app.py line 104: `df["CustomerID"].nunique()`, which ignores nulls. -/
def uniqueCustomers (rows : List Row) : Nat :=
  (rows.filterMap fun r => r.CustomerID).dedup.length

/-- The KPI triple (total revenue, invoice count, unique customers). -/
def summarize (rows : List Row) : ℚ × Nat × Nat :=
  (totalRevenue rows, invoiceCount rows, uniqueCustomers rows)

/-- src/app.py lines 64-65: group by customer, sum invoice totals, sort
descending, keep the first ten. -/
def topCustomers (rows : List Row) : List (Nat × ℚ) :=
  sortValuesDescHead10 (groupSum (fun r => r.CustomerID) (fun r => r.InvoiceTotal) rows)

/-- src/app.py lines 119-120: group the raw line items by description, sum
line totals, sort descending, keep the first ten. -/
def topProducts (items : List LineItem) : List (String × ℚ) :=
  sortValuesDescHead10 (groupSum (fun li => some li.Description) (fun li => li.LineTotal) items)

/-- pandas `Series.quantile(0.99)` with linear interpolation between the
order statistics at positions `floor(0.99 (n-1))` and the next one; `none`
models the NaN an empty column yields. -/
def quantile99 : List ℚ → Option ℚ
  | [] => none
  | x :: xs =>
    let s := List.insertionSort (fun a b : ℚ => a ≤ b) (x :: xs)
    let k := 99 * xs.length
    let lo := s.getD (k / 100) 0
    let hi := s.getD (k / 100 + 1) lo
    some (lo + (((k % 100 : Nat) : ℚ) / 100) * (hi - lo))

/-- src/app.py lines 128-129: the rows strictly above the 99th-percentile
threshold; a NaN threshold (empty column) compares false everywhere, so the
empty table yields the empty subset. -/
def anomalies (rows : List Row) : List Row :=
  match quantile99 (rows.map fun r => r.InvoiceTotal) with
  | none => []
  | some t => rows.filter fun r => t < r.InvoiceTotal

/-- pandas `dt.day_name()`: weekday of a date, by Zeller's congruence. -/
def dayName (d : Date) : String :=
  let y := if d.month < 3 then d.year - 1 else d.year
  let m := if d.month < 3 then d.month + 12 else d.month
  let h := (d.day + 13 * (m + 1) / 5 + y % 100 + y % 100 / 4 + y / 100 / 4 + 5 * (y / 100)) % 7
  if h = 0 then "Saturday"
  else if h = 1 then "Sunday"
  else if h = 2 then "Monday"
  else if h = 3 then "Tuesday"
  else if h = 4 then "Wednesday"
  else if h = 5 then "Thursday"
  else "Friday"

/-- src/app.py lines 81-83: group by weekday name, aggregate the revenue
sum and the distinct invoice count, sort by revenue descending. -/
def weekdayStats (rows : List Row) : List (String × ℚ × Nat) :=
  List.insertionSort (descBy fun p => p.2.1)
    ((groupKeys (fun r => some (dayName r.InvoiceDate)) rows).map fun w =>
      let grp := rows.filter fun r => dayName r.InvoiceDate = w
      (w, ((grp.map fun r => r.InvoiceTotal).sum, (grp.map fun r => r.InvoiceNo).dedup.length)))

/-- src/app.py lines 70-72: the rows of one customer, bucketed by month,
invoice totals summed, months ascending. -/
def customerTrend (rows : List Row) (cid : Nat) : List (Date × ℚ) :=
  let cdf := rows.filter fun r => r.CustomerID = some cid
  (List.insertionSort Date.le ((cdf.map fun r => monthStart r.InvoiceDate).dedup)).map
    fun mth => (mth, ((cdf.filter fun r => monthStart r.InvoiceDate = mth).map
      fun r => r.InvoiceTotal).sum)

/-- src/app.py lines 48-50: group by (Country, month bucket), count
distinct invoice numbers, one output row per key; pandas sorts the key
pairs lexicographically. -/
def countryMonthly (rows : List Row) : List ((String × Date) × Nat) :=
  (List.insertionSort ckLe ((rows.map fun r => (r.Country, monthStart r.InvoiceDate)).dedup)).map
    fun k => (k, ((rows.filter fun r => (r.Country, monthStart r.InvoiceDate) = k).map
      fun r => r.InvoiceNo).dedup.length)

/-- Crosstab row labels: the distinct non-null customer ids, ascending. -/
def retentionCustomers (rows : List Row) : List Nat :=
  List.insertionSort (· ≤ ·) ((rows.filterMap fun r => r.CustomerID).dedup)

/-- Crosstab column labels: the distinct month buckets of the rows with a
non-null customer id, ascending (crosstab drops null-key rows entirely). -/
def retentionMonths (rows : List Row) : List Date :=
  List.insertionSort Date.le
    (((rows.filter fun r => r.CustomerID ≠ none).map fun r => monthStart r.InvoiceDate).dedup)

/-- One crosstab cell: how many invoice rows customer `k` has in month `m`. -/
def retentionCell (rows : List Row) (k : Nat) (m : Date) : Nat :=
  (rows.filter fun r => r.CustomerID = some k ∧ monthStart r.InvoiceDate = m).length

/-- src/app.py line 93: `pd.crosstab(CustomerID, Month)` as a row-major
table over the full label grid, missing combinations counted 0. -/
def retention (rows : List Row) : List (Nat × List (Date × Nat)) :=
  (retentionCustomers rows).map fun k =>
    (k, (retentionMonths rows).map fun m => (m, retentionCell rows k m))

/-- Look up a cell of a row-major table at row key `k`, column key `m`. -/
def lookupCell (tbl : List (Nat × List (Date × Nat))) (k : Nat) (m : Date) : Option Nat :=
  match tbl.find? fun p => p.1 = k with
  | none => none
  | some p => (p.2.find? fun q => q.1 = m).map Prod.snd

/-- The script's two dataframe variables: the loaded table and the shared
filtered table every stage reads and line 81 writes into. -/
structure AppState where
  df_full : List Row
  df : List Row

/-- src/app.py lines 24-25: load, then `df = df_full.copy()`. -/
def initState (loaded : List Row) : AppState := ⟨loaded, loaded⟩

/-- src/app.py lines 33-40: the filter stage rebinds `df`. -/
def applyFilters (c : Option String) (range : List Date) (s : AppState) : AppState :=
  { s with df := filterStage s.df c range }

/-- src/app.py line 81: `df["Weekday"] = ...` writes the derived column
into the shared filtered frame in place. -/
def weekdayStage (s : AppState) : AppState :=
  { s with df := s.df.map fun r => { r with Weekday := some (dayName r.InvoiceDate) } }

/-- The script's stages in source order up to the export buttons. -/
def runScript (loaded : List Row) (c : Option String) (range : List Date) : AppState :=
  weekdayStage (applyFilters c range (initState loaded))

/-- src/app.py lines 152-155: the CSV export serializes the shared `df`
as it stands after the weekday stage. -/
def csvExport (s : AppState) : List Row := s.df

/-! Concrete sample data used by the witness theorems. -/

/-- A May 2020 date. -/
def dA : Date := ⟨2020, 5, 7⟩

/-- A January 2020 date. -/
def dB : Date := ⟨2020, 1, 15⟩

/-- An invoice row of customer 1 in country "A". -/
def rCA : Row := ⟨1, dA, some 1, "A", 10, none⟩

/-- An invoice row of customer 2 in country "B". -/
def rCB : Row := ⟨2, dB, some 2, "B", 20, none⟩

/-- An invoice row with a null customer id. -/
def rN : Row := ⟨4, dB, none, "A", 7, none⟩

/-- The row `rCA` after the weekday stage has written its derived column. -/
def rCAw : Row := ⟨1, dA, some 1, "A", 10, some (dayName dA)⟩

/-! Helper lemmas shared by the claim theorems. -/

/-- The 99th percentile of a one-element column is that element. -/
theorem quantile99_singleton (x : ℚ) : quantile99 [x] = some x := by
  simp [quantile99, List.insertionSort, List.orderedInsert]

/-- `find?` by key succeeds on a key-value table built over a key list. -/
theorem find?_pairs {κ β : Type} [DecidableEq κ] (g : κ → β) :
    ∀ (l : List κ) (k : κ), k ∈ l →
      ((l.map fun x => (x, g x)).find? fun p => p.1 = k) = some (k, g k)
  | [], k, h => by cases h
  | x :: l, k, h => by
    by_cases hx : x = k
    · subst hx
      rw [List.map_cons, List.find?_cons_of_pos _ (by simp)]
    · have hk : k ∈ l := by
        rcases List.mem_cons.mp h with h' | h'
        · exact absurd h'.symm hx
        · exact h'
      rw [List.map_cons, List.find?_cons_of_neg _ (by simp [hx])]
      exact find?_pairs g l k hk

/-- Filtering through a total key function keeps every row. -/
theorem filterMap_some_map {α β : Type} (f : α → β) (l : List α) :
    l.filterMap (fun a => some (f a)) = l.map f := by
  induction l with
  | nil => rfl
  | cons a l ih => simp [List.filterMap_cons, ih]

/-- Rows surviving the country predicate come from the input table. -/
theorem mem_countryFilter {rows : List Row} {c : Option String} {r : Row}
    (h : r ∈ countryFilter rows c) : r ∈ rows := by
  cases c with
  | none => exact h
  | some s => exact (List.mem_filter.mp h).1

/-- Rows surviving the date predicate come from the input table. -/
theorem mem_dateFilter {rows : List Row} {range : List Date} {r : Row}
    (h : r ∈ dateFilter rows range) : r ∈ rows := by
  rcases range with _ | ⟨a, _ | ⟨b, _ | ⟨c, rest⟩⟩⟩
  · exact h
  · exact h
  · exact (List.mem_filter.mp h).1
  · exact h

/-! The claims. -/

/-- C1: the anomaly detector returns exactly the rows whose `InvoiceTotal`
is strictly greater than the 99th percentile (linear interpolation) of
`InvoiceTotal` over the table, and on a table of fewer than two rows the
returned anomaly set is empty. -/
theorem anomalies_spec (rows : List Row) :
    (rows.length < 2 → anomalies rows = []) ∧
    (∀ t, quantile99 (rows.map fun r => r.InvoiceTotal) = some t →
      ∀ r, r ∈ anomalies rows ↔ r ∈ rows ∧ t < r.InvoiceTotal) := by
  constructor
  · intro h
    rcases rows with _ | ⟨a, _ | ⟨b, rest⟩⟩
    · rfl
    · unfold anomalies
      rw [List.map_cons, List.map_nil, quantile99_singleton]
      simp
    · rw [List.length_cons, List.length_cons] at h
      omega
  · intro t ht r
    unfold anomalies
    rw [ht]
    simp [List.mem_filter]

/-- C1 witness: a one-row table yields no anomalies, and on that table the
anomaly set is characterized by strict comparison with the percentile. -/
theorem anomalies_spec_witness :
    anomalies [rCA] = [] ∧
    (rCA ∈ anomalies [rCA] ↔ rCA ∈ [rCA] ∧ (10 : ℚ) < rCA.InvoiceTotal) :=
  ⟨(anomalies_spec [rCA]).1 (by decide),
   (anomalies_spec [rCA]).2 10 (by simp [rCA, quantile99_singleton]) rCA⟩

/-- C2: every row of the filtered table is a row of the input table; the
filter stage adds and modifies nothing. -/
theorem filterStage_subset (rows : List Row) (c : Option String) (range : List Date) (r : Row)
    (h : r ∈ filterStage rows c range) : r ∈ rows :=
  mem_countryFilter (mem_dateFilter h)

/-- C2 witness: a concrete filtered row is a row of the input table. -/
theorem filterStage_subset_witness : rCA ∈ [rCA, rCB] :=
  filterStage_subset [rCA, rCB] (some "A") [dB, dA] rCA (by decide)

/-- C3: the date predicate keeps exactly the rows with
start ≤ InvoiceDate ≤ end, inclusive on both endpoints, and whenever the
supplied range does not consist of exactly two endpoints the table passes
through unchanged. -/
theorem dateFilter_spec (rows : List Row) (s e : Date) (range : List Date) :
    dateFilter rows [s, e] =
      (rows.filter fun r => Date.le s r.InvoiceDate ∧ Date.le r.InvoiceDate e) ∧
    (range.length ≠ 2 → dateFilter rows range = rows) := by
  refine ⟨rfl, ?_⟩
  intro h
  rcases range with _ | ⟨a, _ | ⟨b, _ | ⟨c, rest⟩⟩⟩
  · rfl
  · rfl
  · exact absurd rfl h
  · rfl

/-- C3 witness: the inclusive predicate on a concrete two-endpoint range,
and pass-through on a concrete one-endpoint range. -/
theorem dateFilter_spec_witness :
    dateFilter [rCA, rCB] [dB, dA] =
      ([rCA, rCB].filter fun r => Date.le dB r.InvoiceDate ∧ Date.le r.InvoiceDate dA) ∧
    dateFilter [rCA, rCB] [dB] = [rCA, rCB] :=
  ⟨(dateFilter_spec [rCA, rCB] dB dA [dB]).1,
   (dateFilter_spec [rCA, rCB] dB dA [dB]).2 (by decide)⟩

/-- C4: every customer-keyed aggregation excludes rows with a null
`CustomerID`: top-customer groups are keyed by ids that occur non-null and
sum only the rows carrying that id, retention rows are keyed by non-null
ids, and the unique-customers KPI counts distinct non-null ids. -/
theorem customer_aggregations_exclude_null (rows : List Row) :
    (∀ p, p ∈ topCustomers rows →
      (∃ r ∈ rows, r.CustomerID = some p.1) ∧
      p.2 = ((rows.filter fun r => r.CustomerID = some p.1).map fun r => r.InvoiceTotal).sum) ∧
    (∀ q, q ∈ retention rows → ∃ r ∈ rows, r.CustomerID = some q.1) ∧
    uniqueCustomers rows = ((rows.filterMap fun r => r.CustomerID).toFinset).card := by
  refine ⟨?_, ?_, (List.card_toFinset _).symm⟩
  · intro p hp
    have hp2 : p ∈ groupSum (fun r => r.CustomerID) (fun r => r.InvoiceTotal) rows :=
      (List.mem_insertionSort (descBy Prod.snd)).mp ((List.take_sublist 10 _).subset hp)
    rcases List.mem_map.mp hp2 with ⟨k, hk, rfl⟩
    have hk2 := List.mem_filterMap.mp (List.mem_dedup.mp hk)
    exact ⟨hk2, rfl⟩
  · intro q hq
    rcases List.mem_map.mp hq with ⟨k, hk, rfl⟩
    exact List.mem_filterMap.mp (List.mem_dedup.mp ((List.mem_insertionSort _).mp hk))

/-- C4 witness: on a table with a null-customer row, the only top-customer
group is the non-null id 1 with the sum of its own rows, and the only
retention row is keyed by id 1. -/
theorem customer_aggregations_exclude_null_witness :
    ((∃ r ∈ [rCA, rN], r.CustomerID = some 1) ∧
      (10 : ℚ) = (([rCA, rN].filter fun r => r.CustomerID = some 1).map
        fun r => r.InvoiceTotal).sum) ∧
    (∃ r ∈ [rCA, rN], r.CustomerID = some 1) :=
  ⟨(customer_aggregations_exclude_null [rCA, rN]).1 (1, 10)
      (by simp [topCustomers, sortValuesDescHead10, groupSum, groupKeys, rCA, rN,
        List.insertionSort, List.orderedInsert]),
   (customer_aggregations_exclude_null [rCA, rN]).2.1
      (1, [(⟨2020, 5, 1⟩, 1)]) (by decide)⟩

/-- C5: the top-customers and top-products lists each have length
min(10, number of distinct group keys) and are sorted descending by the
aggregated value, with no adjacent pair out of order. -/
theorem top10_length_sorted (rows : List Row) (items : List LineItem) :
    (topCustomers rows).length = min 10 ((rows.filterMap fun r => r.CustomerID).dedup.length) ∧
    List.Pairwise (fun a b => b.2 ≤ a.2) (topCustomers rows) ∧
    (topProducts items).length = min 10 ((items.map fun li => li.Description).dedup.length) ∧
    List.Pairwise (fun a b => b.2 ≤ a.2) (topProducts items) := by
  refine ⟨?_, ?_, ?_, ?_⟩
  · simp [topCustomers, sortValuesDescHead10, List.length_take, List.length_insertionSort,
      groupSum, groupKeys]
  · exact List.Pairwise.sublist (List.take_sublist 10 _)
      (List.sorted_insertionSort (descBy Prod.snd) _)
  · simp [topProducts, sortValuesDescHead10, List.length_take, List.length_insertionSort,
      groupSum, groupKeys, filterMap_some_map]
  · exact List.Pairwise.sublist (List.take_sublist 10 _)
      (List.sorted_insertionSort (descBy Prod.snd) _)

/-- C6: the KPI summary is (sum of `InvoiceTotal`, raw row count, number of
distinct non-null `CustomerID` values). -/
theorem summarize_spec (rows : List Row) :
    summarize rows = ((rows.map fun r => r.InvoiceTotal).sum, rows.length,
      ((rows.filterMap fun r => r.CustomerID).toFinset).card) := by
  unfold summarize totalRevenue invoiceCount uniqueCustomers
  simp [List.sum_eq_foldl, List.card_toFinset]

/-- C7: for every customer and month on the crosstab axes, the retention
cell equals the count of that customer's invoice rows in that month; a
combination with no matching rows is 0 before the display transform, and
log(1+x) maps 0 to 0. -/
theorem retention_cell_spec :
    (∀ (rows : List Row) (k : Nat) (m : Date),
      k ∈ retentionCustomers rows → m ∈ retentionMonths rows →
      lookupCell (retention rows) k m = some (retentionCell rows k m)) ∧
    (∀ (rows : List Row) (k : Nat) (m : Date),
      (rows.filter fun r => r.CustomerID = some k ∧ monthStart r.InvoiceDate = m) = [] →
      retentionCell rows k m = 0) ∧
    Real.log (1 + (0 : ℝ)) = 0 := by
  refine ⟨?_, ?_, by simp⟩
  · intro rows k m hk hm
    have h1 := find?_pairs
      (fun k => (retentionMonths rows).map fun m => (m, retentionCell rows k m))
      (retentionCustomers rows) k hk
    have h2 := find?_pairs (fun m => retentionCell rows k m) (retentionMonths rows) m hm
    unfold lookupCell retention
    rw [h1]
    simp only []
    rw [h2]
    rfl
  · intro rows k m h
    unfold retentionCell
    rw [h]
    rfl

/-- C7 witness: a concrete cell lookup equals the concrete row count, and a
customer-month combination with no rows counts 0. -/
theorem retention_cell_spec_witness :
    lookupCell (retention [rCA, rCB]) 1 ⟨2020, 5, 1⟩ =
      some (retentionCell [rCA, rCB] 1 ⟨2020, 5, 1⟩) ∧
    retentionCell [rCA, rCB] 2 ⟨2020, 5, 1⟩ = 0 :=
  ⟨retention_cell_spec.1 [rCA, rCB] 1 ⟨2020, 5, 1⟩ (by decide) (by decide),
   retention_cell_spec.2.1 [rCA, rCB] 2 ⟨2020, 5, 1⟩ (by decide)⟩

/-- C8 counterexample: with two countries present, the monthly country
trend is not ordered by Month ascending — pandas sorts by (Country, Month),
so country "A"'s May 2020 row precedes country "B"'s January 2020 row. -/
theorem countryMonthly_not_month_sorted :
    ¬ List.Pairwise (fun a b => Date.le a b)
      ((countryMonthly [rCA, rCB]).map fun p => p.1.2) := by
  decide

/-- C8 amended: the monthly country trend buckets each date to the first
day of its month, has exactly one output row per realized (Country, Month)
key — every row's key appears, and no key twice — counts distinct invoice
numbers per group, and is ordered lexicographically by (Country, Month)
ascending — so by Month ascending within each country, not globally. -/
theorem countryMonthly_spec (rows : List Row) :
    List.Pairwise ckLe ((countryMonthly rows).map fun p => p.1) ∧
    ((countryMonthly rows).map fun p => p.1).Nodup ∧
    (∀ r ∈ rows,
      (r.Country, monthStart r.InvoiceDate) ∈ (countryMonthly rows).map fun p => p.1) ∧
    (∀ p, p ∈ countryMonthly rows →
      p.2 = ((rows.filter fun r => (r.Country, monthStart r.InvoiceDate) = p.1).map
        fun r => r.InvoiceNo).dedup.length ∧
      (∃ r ∈ rows, p.1 = (r.Country, monthStart r.InvoiceDate)) ∧ p.1.2.day = 1) := by
  have hfst : (countryMonthly rows).map (fun p => p.1) =
      List.insertionSort ckLe ((rows.map fun r => (r.Country, monthStart r.InvoiceDate)).dedup) := by
    unfold countryMonthly
    rw [List.map_map]
    exact List.map_id _
  refine ⟨?_, ?_, ?_, ?_⟩
  · rw [hfst]
    exact List.sorted_insertionSort ckLe _
  · rw [hfst]
    exact (List.perm_insertionSort ckLe _).symm.nodup (List.nodup_dedup _)
  · intro r hr
    rw [hfst]
    exact (List.mem_insertionSort ckLe).mpr
      (List.mem_dedup.mpr (List.mem_map_of_mem _ hr))
  · intro p hp
    unfold countryMonthly at hp
    rcases List.mem_map.mp hp with ⟨k, hk, rfl⟩
    refine ⟨rfl, ?_, ?_⟩
    · have hk2 := List.mem_dedup.mp ((List.mem_insertionSort ckLe).mp hk)
      rcases List.mem_map.mp hk2 with ⟨r, hr, hre⟩
      exact ⟨r, hr, hre.symm⟩
    · have hk2 := List.mem_dedup.mp ((List.mem_insertionSort ckLe).mp hk)
      rcases List.mem_map.mp hk2 with ⟨r, hr, hre⟩
      rw [← hre]
      rfl

/-- C8 witness: the one row of a one-row table has its (Country, Month) key
in the output, and the single group carries the distinct invoice count of
its rows, comes from a row, and its month is a first-of-month date. -/
theorem countryMonthly_spec_witness :
    (("A", (⟨2020, 5, 1⟩ : Date)) ∈ (countryMonthly [rCA]).map fun p => p.1) ∧
    (1 = (([rCA].filter fun r =>
        (r.Country, monthStart r.InvoiceDate) = ("A", (⟨2020, 5, 1⟩ : Date))).map
      fun r => r.InvoiceNo).dedup.length ∧
    (∃ r ∈ [rCA], ("A", (⟨2020, 5, 1⟩ : Date)) = (r.Country, monthStart r.InvoiceDate)) ∧
    (⟨2020, 5, 1⟩ : Date).day = 1) :=
  ⟨(countryMonthly_spec [rCA]).2.2.1 rCA (by decide),
   (countryMonthly_spec [rCA]).2.2.2 (("A", ⟨2020, 5, 1⟩), 1) (by decide)⟩

/-- C9: every derived view of the empty table is empty and the KPI scalars
are defined: zero revenue, zero rows, zero unique customers. -/
theorem empty_table_degrades :
    countryMonthly [] = [] ∧ topCustomers [] = [] ∧ (∀ cid, customerTrend [] cid = []) ∧
    weekdayStats [] = [] ∧ retention [] = [] ∧ topProducts [] = [] ∧
    anomalies [] = [] ∧ summarize [] = (0, 0, 0) :=
  ⟨rfl, rfl, fun _ => rfl, rfl, rfl, rfl, rfl, rfl⟩

/-- C10: the weekday stage writes the derived column into the shared
filtered table, so the CSV export carries a populated `Weekday` column on
every row, while the originally loaded table is never mutated and keeps no
such column. -/
theorem weekday_mutation_spec (loaded : List Row) (c : Option String) (range : List Date)
    (h : ∀ r ∈ loaded, r.Weekday = none) :
    (∀ r ∈ csvExport (runScript loaded c range), r.Weekday = some (dayName r.InvoiceDate)) ∧
    (runScript loaded c range).df_full = loaded ∧
    (∀ r ∈ (runScript loaded c range).df_full, r.Weekday = none) := by
  refine ⟨?_, rfl, ?_⟩
  · intro r hr
    unfold csvExport runScript weekdayStage at hr
    simp only [List.mem_map] at hr
    rcases hr with ⟨a, ha, rfl⟩
    rfl
  · intro r hr
    exact h r hr

/-- C10 witness: on a concrete loaded table, the exported row carries the
weekday column and the loaded table is returned unchanged. -/
theorem weekday_mutation_spec_witness :
    rCAw.Weekday = some (dayName rCAw.InvoiceDate) ∧
    (runScript [rCA] none []).df_full = [rCA] :=
  ⟨(weekday_mutation_spec [rCA] none [] (by decide)).1 rCAw (by decide),
   (weekday_mutation_spec [rCA] none [] (by decide)).2.1⟩
